import Mathlib

/-!
Verification of `capa/features/extractors/dotnetfile.py`: a shallow embedding
of the .NET file-level feature extractor, with theorems checking the
natural-language specification against it.

The embedding models the parsed binary (`dnfile.dnPE`) as a record of the
metadata the extractor reads: TypeDef/TypeRef rows, resolved managed and
unmanaged imports, CLR header flags, the PE optional-header magic, the raw
metadata version bytes, and the raw file data.  Helper functions that live in
`capa.features.extractors.dnfile.helpers`, `capa.features.extractors.helpers`
and `capa.features.common` (constants) are repository code outside the given
source file; those are modelled from the spec and marked as such.
-/

namespace DotnetFile

/-- Feature values (from `capa.features.common` / `capa.features.file`,
modelled as a tagged value per feature kind; payloads are strings). -/
inductive Feature where
  | Import (s : String)
  | FunctionName (s : String)
  | Namespace (s : String)
  | Class (s : String)
  | Characteristic (s : String)
  | Arch (s : String)
  | OSFeature (s : String)
  | Format (s : String)
  | Str (s : String)
  deriving DecidableEq, Repr

/-- Modelled from the spec: constant `"any"` for `OS_ANY` in
`capa.features.common` (the OS marker is always tagged "any"). -/
def OS_ANY : String := "any"

/-- Modelled from the spec: constant for `ARCH_I386` (x86). -/
def ARCH_I386 : String := "i386"

/-- Modelled from the spec: constant for `ARCH_AMD64` (x64). -/
def ARCH_AMD64 : String := "amd64"

/-- Modelled from the spec: constant for `ARCH_ANY`. -/
def ARCH_ANY : String := "any"

/-- Modelled from the spec: constant for `FORMAT_DOTNET`. -/
def FORMAT_DOTNET : String := "dotnet"

/-- Constant `pefile.OPTIONAL_HEADER_MAGIC_PE`: the PE32 (32-bit layout) magic. -/
def OPTIONAL_HEADER_MAGIC_PE : Nat := 0x10b

/-- Constant `pefile.OPTIONAL_HEADER_MAGIC_PE_PLUS`: the PE32+ (64-bit layout) magic. -/
def OPTIONAL_HEADER_MAGIC_PE_PLUS : Nat := 0x20b

/-- One row of the TypeDef or TypeRef metadata table: the two columns the
extractor reads (`TypeNamespace`, `TypeName`). -/
structure TypeRow where
  TypeNamespace : String
  TypeName : String
  deriving DecidableEq, Repr

/-- A resolved managed method reference (`DnMethod` from
`capa.features.extractors.dnfile.helpers`).  Modelled from the spec:
(declaring type namespace, declaring type name, method name, token). -/
structure DnMethod where
  namespace_ : String
  typename : String
  methodname : String
  token : Nat
  deriving DecidableEq, Repr

/-- A resolved unmanaged (P/Invoke) import (`DnUnmanagedMethod`).  Modelled
from the spec: (module name, symbol name, token). -/
structure DnUnmanagedImport where
  modulename : String
  methodname : String
  token : Nat
  deriving DecidableEq, Repr

/-- CLR header flags bitfield: the two bits the extractor reads. -/
structure ClrFlags where
  CLR_32BITREQUIRED : Bool
  CLR_ILONLY : Bool
  deriving DecidableEq, Repr

/-- The parsed binary (`dnfile.dnPE`) restricted to the data the extractor
reads.  Table joins performed by the helpers
(`get_dotnet_managed_imports`, `get_dotnet_managed_methods`,
`get_dotnet_unmanaged_imports`) are outside the given source file; their
results are modelled from the spec as already-resolved lists (a failed join
simply contributes no element).  An absent metadata table is modelled as the
empty list, matching the spec's "empty sequence if absent". -/
structure DnPE where
  typedefRows : List TypeRow
  typerefRows : List TypeRow
  managedImports : List DnMethod
  managedMethods : List DnMethod
  unmanagedImports : List DnUnmanagedImport
  netFlags : ClrFlags
  PE_TYPE : Nat
  data : List Nat
  metadataVersion : List Nat
  entryPointTokenOrRva : Nat
  majorRuntimeVersion : Nat
  minorRuntimeVersion : Nat
  deriving DecidableEq, Repr

/-- Table identifier of the TypeDef metadata table
(`pe.net.mdtables.TypeDef.number`, ECMA-335 value 2, supplied by dnfile). -/
def typeDefTableNumber : Nat := 2

/-- Table identifier of the TypeRef metadata table
(`pe.net.mdtables.TypeRef.number`, ECMA-335 value 1, supplied by dnfile). -/
def typeRefTableNumber : Nat := 1

/-- Modelled from the spec: `calculate_dotnet_token_value` from
`capa.features.extractors.dnfile.helpers` — a 32-bit metadata token,
`(table_id << 24) | row_index` with a 1-based row index. -/
def calculate_dotnet_token_value (table : Nat) (rid : Nat) : Nat :=
  ((table % 2 ^ 8) <<< 24) ||| (rid % 2 ^ 24)

/-- Modelled from the spec: `iter_dotnet_table` from
`capa.features.extractors.dnfile.helpers` — the rows of the named metadata
table, or the empty sequence if the table is absent (absence is modelled as
the empty list in `DnPE`). -/
def iter_dotnet_table (pe : DnPE) (name : String) : List TypeRow :=
  if name = "TypeDef" then pe.typedefRows
  else if name = "TypeRef" then pe.typerefRows
  else []

/-- Modelled from the spec: `DnClass.format_name` — `name` if the namespace
is empty, else `namespace.name`. -/
def format_name (namespace_ : String) (name : String) : String :=
  if namespace_ = "" then name else namespace_ ++ "." ++ name

/-- Modelled from the spec: `str(method)` for a `DnMethod` — the qualified
method name `format_type(namespace, type) ++ "::" ++ method`. -/
def format_method (m : DnMethod) : String :=
  format_name m.namespace_ m.typename ++ "::" ++ m.methodname

/-- Modelled from the spec: `generate_symbols` from
`capa.features.extractors.helpers` — the exact symbol name; when the name
lacks the well-known ANSI/Unicode suffix, also the "A" and "W" suffixed
forms. -/
def generate_symbols (modulename : String) (methodname : String) : List String :=
  if methodname.data.getLast? = some 'A' ∨ methodname.data.getLast? = some 'W' then
    [methodname]
  else
    [methodname, methodname ++ "A", methodname ++ "W"]

/-- Modelled from the spec: `is_dotnet_mixed_mode` from
`capa.features.extractors.dnfile.helpers` — true iff the "IL only" CLR flag
is absent. -/
def is_dotnet_mixed_mode (pe : DnPE) : Bool :=
  !pe.netFlags.CLR_ILONLY

/-- Source `extract_file_format`: a single constant format marker at address 0. -/
def extract_file_format : List (Feature × Nat) :=
  [(Feature.Format FORMAT_DOTNET, 0x0)]

/-- Source `extract_file_import_names`: managed imports by qualified name at their
token, then each unmanaged import expanded into its name variants, every
variant at that import's token. -/
def extract_file_import_names (pe : DnPE) : List (Feature × Nat) :=
  (pe.managedImports.map fun method => (Feature.Import (format_method method), method.token))
  ++ (pe.unmanagedImports.flatMap fun imp =>
        (generate_symbols imp.modulename imp.methodname).map fun name =>
          (Feature.Import name, imp.token))

/-- Source `extract_file_function_names`: every managed method defined in the
binary, by qualified name at its token. -/
def extract_file_function_names (pe : DnPE) : List (Feature × Nat) :=
  pe.managedMethods.map fun method => (Feature.FunctionName (format_method method), method.token)

/-- Source `extract_file_namespace_features`: the set of namespaces appearing in
TypeDef and TypeRef rows, with the empty namespace discarded, each at
address 0.  The Python `set` is modelled as `List.dedup` of the gathered
namespaces (each distinct element once). -/
def extract_file_namespace_features (pe : DnPE) : List (Feature × Nat) :=
  let namespaces :=
    ((iter_dotnet_table pe "TypeDef").map TypeRow.TypeNamespace
      ++ (iter_dotnet_table pe "TypeRef").map TypeRow.TypeNamespace).dedup
  (namespaces.filter (fun n => n ≠ "")).map fun namespace_ =>
    (Feature.Namespace namespace_, 0x0)

/-- Source `extract_file_class_features`: every TypeDef row, then every TypeRef
row, as a formatted type name at the token computed from that row's own
table number and 1-based ordinal (`enumerate` gives the 0-based `rid`). -/
def extract_file_class_features (pe : DnPE) : List (Feature × Nat) :=
  ((iter_dotnet_table pe "TypeDef").enum.map fun p =>
    (Feature.Class (format_name p.2.TypeNamespace p.2.TypeName),
     calculate_dotnet_token_value typeDefTableNumber (p.1 + 1)))
  ++ ((iter_dotnet_table pe "TypeRef").enum.map fun p =>
    (Feature.Class (format_name p.2.TypeNamespace p.2.TypeName),
     calculate_dotnet_token_value typeRefTableNumber (p.1 + 1)))

/-- Source `extract_file_os`: a single OS marker, always "any", at address 0. -/
def extract_file_os : List (Feature × Nat) :=
  [(Feature.OSFeature OS_ANY, 0x0)]

/-- Source `extract_file_arch`: x86 when `CLR_32BITREQUIRED` is set and the
optional header is PE32; x64 when the flag is clear and the header is
PE32+; otherwise "any". -/
def extract_file_arch (pe : DnPE) : List (Feature × Nat) :=
  if pe.netFlags.CLR_32BITREQUIRED ∧ pe.PE_TYPE = OPTIONAL_HEADER_MAGIC_PE then
    [(Feature.Arch ARCH_I386, 0x0)]
  else if ¬pe.netFlags.CLR_32BITREQUIRED ∧ pe.PE_TYPE = OPTIONAL_HEADER_MAGIC_PE_PLUS then
    [(Feature.Arch ARCH_AMD64, 0x0)]
  else
    [(Feature.Arch ARCH_ANY, 0x0)]

/-- Source `extract_file_strings`: delegates to the external printable-string
scanner `capa.features.extractors.common.extract_file_strings` over the raw
bytes.  Modelled from the spec: the scanner is external and unspecified, so
it is passed in as a parameter. -/
def extract_file_strings (scanner : List Nat → List (Feature × Nat)) (pe : DnPE) :
    List (Feature × Nat) :=
  scanner pe.data

/-- Source `extract_file_mixed_mode_characteristic_features`: the "mixed mode"
characteristic at address 0, only when the binary is mixed-mode. -/
def extract_file_mixed_mode_characteristic_features (pe : DnPE) : List (Feature × Nat) :=
  if is_dotnet_mixed_mode pe then [(Feature.Characteristic "mixed mode", 0x0)] else []

/-- Source `extract_file_features`: concatenation of every registered file handler's
output, in the `FILE_HANDLERS` order. -/
def extract_file_features (scanner : List Nat → List (Feature × Nat)) (pe : DnPE) :
    List (Feature × Nat) :=
  extract_file_import_names pe
  ++ extract_file_function_names pe
  ++ extract_file_strings scanner pe
  ++ extract_file_format
  ++ extract_file_mixed_mode_characteristic_features pe
  ++ extract_file_namespace_features pe
  ++ extract_file_class_features pe

/-- Source `extract_global_features`: concatenation of the global handlers' output,
in the `GLOBAL_HANDLERS` order. -/
def extract_global_features (pe : DnPE) : List (Feature × Nat) :=
  extract_file_os ++ extract_file_arch pe

/-- Errors a facade method may raise: `NotImplementedError` for
function/instruction-level operations (the spec's `UnsupportedOperation`),
and `UnicodeDecodeError` from strict UTF-8 decoding. -/
inductive CapaError where
  | UnsupportedOperation (msg : String)
  | UnicodeDecodeError
  deriving DecidableEq, Repr

/-- The message every unsupported facade operation raises with. -/
def unsupportedMsg : String :=
  "DotnetFileFeatureExtractor can only be used to extract file features"

/-- Python `bytes.rstrip(b"\x00")`: drop trailing zero bytes. -/
def rstripNull (bs : List Nat) : List Nat :=
  (bs.reverse.dropWhile (fun b => b == 0)).reverse

/-- Worker for `utf8Decode`, structurally recursive on a fuel argument.
Each step consumes at least one byte and one unit of fuel, so starting with
fuel equal to the byte count the fuel never runs out. -/
def utf8DecodeAux : Nat → List Nat → Option (List Char)
  | _, [] => some []
  | 0, _ :: _ => none
  | fuel + 1, b :: rest =>
    if b < 0x80 then
      (utf8DecodeAux fuel rest).map fun cs => Char.ofNat b :: cs
    else if b < 0xC2 then
      -- stray continuation byte (0x80-0xBF) or overlong 2-byte lead (0xC0, 0xC1)
      none
    else if b < 0xE0 then
      match rest with
      | c1 :: rest1 =>
        if 0x80 ≤ c1 ∧ c1 < 0xC0 then
          (utf8DecodeAux fuel rest1).map fun cs =>
            Char.ofNat ((b - 0xC0) * 64 + (c1 - 0x80)) :: cs
        else none
      | [] => none
    else if b < 0xF0 then
      match rest with
      | c1 :: c2 :: rest2 =>
        let cp := (b - 0xE0) * 4096 + (c1 - 0x80) * 64 + (c2 - 0x80)
        if (0x80 ≤ c1 ∧ c1 < 0xC0) ∧ (0x80 ≤ c2 ∧ c2 < 0xC0)
            ∧ 0x800 ≤ cp ∧ (cp < 0xD800 ∨ 0xE000 ≤ cp) then
          (utf8DecodeAux fuel rest2).map fun cs => Char.ofNat cp :: cs
        else none
      | _ => none
    else if b < 0xF5 then
      match rest with
      | c1 :: c2 :: c3 :: rest3 =>
        let cp := (b - 0xF0) * 262144 + (c1 - 0x80) * 4096 + (c2 - 0x80) * 64 + (c3 - 0x80)
        if (0x80 ≤ c1 ∧ c1 < 0xC0) ∧ (0x80 ≤ c2 ∧ c2 < 0xC0) ∧ (0x80 ≤ c3 ∧ c3 < 0xC0)
            ∧ 0x10000 ≤ cp ∧ cp ≤ 0x10FFFF then
          (utf8DecodeAux fuel rest3).map fun cs => Char.ofNat cp :: cs
        else none
      | _ => none
    else
      -- 0xF5-0xFF: never valid in UTF-8
      none

/-- Python `bytes.decode("utf-8")` with strict (default) error handling:
decodes the byte list as UTF-8, or fails on any invalid sequence (stray or
missing continuation bytes, overlong encodings, surrogates, out-of-range
code points). -/
def utf8Decode (bs : List Nat) : Option (List Char) :=
  utf8DecodeAux bs.length bs

/-- Class `DotnetFileFeatureExtractor`: the facade bound to one opened binary.
`path` is the constructor argument; `pe` is the parse result of that path. -/
structure DotnetFileFeatureExtractor where
  path : String
  pe : DnPE
  deriving DecidableEq, Repr

namespace DotnetFileFeatureExtractor

/-- Source `get_base_address`: the constant 0. -/
def get_base_address (_self : DotnetFileFeatureExtractor) : Nat := 0x0

/-- Source `get_entry_point`: the raw `EntryPointTokenOrRva` header field. -/
def get_entry_point (self : DotnetFileFeatureExtractor) : Nat :=
  self.pe.entryPointTokenOrRva

/-- Facade `extract_global_features`: delegates to the module-level
function on the bound binary. -/
def extract_global_features (self : DotnetFileFeatureExtractor) : List (Feature × Nat) :=
  DotnetFile.extract_global_features self.pe

/-- Facade `extract_file_features`: delegates to the module-level function
on the bound binary (the external string scanner passed explicitly). -/
def extract_file_features (scanner : List Nat → List (Feature × Nat))
    (self : DotnetFileFeatureExtractor) : List (Feature × Nat) :=
  DotnetFile.extract_file_features scanner self.pe

/-- Source `is_mixed_mode`: delegates to `is_dotnet_mixed_mode`. -/
def is_mixed_mode (self : DotnetFileFeatureExtractor) : Bool :=
  is_dotnet_mixed_mode self.pe

/-- Source `get_runtime_version`: the major/minor runtime version header fields. -/
def get_runtime_version (self : DotnetFileFeatureExtractor) : Nat × Nat :=
  (self.pe.majorRuntimeVersion, self.pe.minorRuntimeVersion)

/-- Source `get_meta_version_string`: strips trailing NUL bytes from the raw
metadata version field and decodes it strictly as UTF-8; a failing decode
raises (`Except.error`). -/
def get_meta_version_string (self : DotnetFileFeatureExtractor) : Except CapaError String :=
  match utf8Decode (rstripNull self.pe.metadataVersion) with
  | some cs => Except.ok (String.mk cs)
  | none => Except.error CapaError.UnicodeDecodeError

/-- Source `get_functions`: always raises `NotImplementedError`. -/
def get_functions (_self : DotnetFileFeatureExtractor) : Except CapaError (List Nat) :=
  Except.error (CapaError.UnsupportedOperation unsupportedMsg)

/-- Source `extract_function_features`: always raises `NotImplementedError`. -/
def extract_function_features (_self : DotnetFileFeatureExtractor) (_f : Nat) :
    Except CapaError (List (Feature × Nat)) :=
  Except.error (CapaError.UnsupportedOperation unsupportedMsg)

/-- Source `get_basic_blocks`: always raises `NotImplementedError`. -/
def get_basic_blocks (_self : DotnetFileFeatureExtractor) (_f : Nat) :
    Except CapaError (List Nat) :=
  Except.error (CapaError.UnsupportedOperation unsupportedMsg)

/-- Source `extract_basic_block_features`: always raises `NotImplementedError`. -/
def extract_basic_block_features (_self : DotnetFileFeatureExtractor) (_f _bb : Nat) :
    Except CapaError (List (Feature × Nat)) :=
  Except.error (CapaError.UnsupportedOperation unsupportedMsg)

/-- Source `get_instructions`: always raises `NotImplementedError`. -/
def get_instructions (_self : DotnetFileFeatureExtractor) (_f _bb : Nat) :
    Except CapaError (List Nat) :=
  Except.error (CapaError.UnsupportedOperation unsupportedMsg)

/-- Source `extract_insn_features`: always raises `NotImplementedError`. -/
def extract_insn_features (_self : DotnetFileFeatureExtractor) (_f _bb _insn : Nat) :
    Except CapaError (List (Feature × Nat)) :=
  Except.error (CapaError.UnsupportedOperation unsupportedMsg)

/-- Source `is_library_function`: always raises `NotImplementedError`. -/
def is_library_function (_self : DotnetFileFeatureExtractor) (_va : Nat) :
    Except CapaError Bool :=
  Except.error (CapaError.UnsupportedOperation unsupportedMsg)

/-- Source `get_function_name`: always raises `NotImplementedError`. -/
def get_function_name (_self : DotnetFileFeatureExtractor) (_va : Nat) :
    Except CapaError String :=
  Except.error (CapaError.UnsupportedOperation unsupportedMsg)

end DotnetFileFeatureExtractor

/-! ### Concrete sample data used by witnesses -/

/-- A small concrete parsed binary: one TypeDef, one TypeRef, one managed
import, one unmanaged import, IL-only flag set, PE32+ header, and an ASCII
metadata version string `"v4.0.30319"` padded with NULs. -/
def samplePE : DnPE where
  typedefRows := [⟨"System.IO", "File"⟩]
  typerefRows := [⟨"", "Obj"⟩]
  managedImports := [⟨"System.IO", "File", "OpenRead", 0x0A000001⟩]
  managedMethods := []
  unmanagedImports := [⟨"kernel32.dll", "CreateFile", 0x1A000001⟩]
  netFlags := ⟨false, true⟩
  PE_TYPE := 0x20b
  data := []
  metadataVersion := [0x76, 0x34, 0x2E, 0x30, 0x2E, 0x33, 0x30, 0x33, 0x31, 0x39, 0x0, 0x0]
  entryPointTokenOrRva := 0
  majorRuntimeVersion := 2
  minorRuntimeVersion := 5

/-- A binary whose TypeDef table holds two rows formatting to the same type
name `N.T` (and no TypeRef rows). -/
def dupClassPE : DnPE :=
  ⟨[⟨"N", "T"⟩, ⟨"N", "T"⟩], [], [], [], [], ⟨false, true⟩, 0x20b, [], [], 0, 2, 5⟩

/-- A binary whose raw metadata version field is the single byte `0xFF`,
which is not valid UTF-8. -/
def badVersionPE : DnPE :=
  ⟨[], [], [], [], [], ⟨false, true⟩, 0x20b, [], [0xFF], 0, 2, 5⟩

/-! ### Helper lemmas -/

/-- Helper: `iter_dotnet_table` on `"TypeDef"` returns the TypeDef rows. -/
theorem iter_dotnet_table_typedef (pe : DnPE) :
    iter_dotnet_table pe "TypeDef" = pe.typedefRows := rfl

/-- Helper: `iter_dotnet_table` on `"TypeRef"` returns the TypeRef rows. -/
theorem iter_dotnet_table_typeref (pe : DnPE) :
    iter_dotnet_table pe "TypeRef" = pe.typerefRows := by
  unfold iter_dotnet_table
  rw [if_neg (by decide), if_pos rfl]

/-- Helper: `utf8DecodeAux` on pure ASCII byte lists succeeds whenever the fuel
covers the byte count. -/
theorem utf8DecodeAux_ascii (bs : List Nat) : ∀ (fuel : Nat), bs.length ≤ fuel →
    (∀ b ∈ bs, b < 0x80) → utf8DecodeAux fuel bs = some (bs.map Char.ofNat) := by
  induction bs with
  | nil => intro fuel _ _; cases fuel <;> rfl
  | cons b rest ih =>
    intro fuel hfuel h
    have hb : b < 0x80 := h b (by simp)
    cases fuel with
    | zero => simp at hfuel
    | succ n =>
      have hr := ih n (by simpa using hfuel) (fun x hx => h x (by simp [hx]))
      have hstep : utf8DecodeAux (n + 1) (b :: rest) =
          (utf8DecodeAux n rest).map fun cs => Char.ofNat b :: cs := by
        rw [utf8DecodeAux.eq_def]
        simp [hb]
      rw [hstep, hr]
      rfl

/-- Over a duplicate-free list, counting the elements equal to `x` gives 1
when `x` occurs and 0 otherwise. -/
theorem countP_eq_ite_of_nodup {α : Type} [DecidableEq α] (l : List α) (x : α)
    (h : l.Nodup) :
    l.countP (fun a => decide (a = x)) = if x ∈ l then 1 else 0 := by
  induction l with
  | nil => rfl
  | cons a t ih =>
    obtain ⟨ha, ht⟩ := List.nodup_cons.mp h
    by_cases hax : a = x
    · subst hax
      simp [List.countP_cons, ih ht, ha]
    · simp [List.countP_cons, ih ht, hax, Ne.symm hax]

/-- Mapping a pair-valued function over an enumerated list and keeping only
the first components forgets the indices. -/
theorem map_fst_enumFrom_map {α β γ : Type} (n : Nat) (l : List α)
    (f : Nat × α → β × γ) (g : α → β) (hfg : ∀ i a, (f (i, a)).1 = g a) :
    ((List.enumFrom n l).map f).map Prod.fst = l.map g := by
  induction l generalizing n with
  | nil => rfl
  | cons a t ih => simp [List.enumFrom, hfg, ih]

/-- Strict UTF-8 decoding succeeds on pure ASCII byte lists, yielding the
bytes as characters. -/
theorem utf8Decode_ascii (bs : List Nat) (h : ∀ b ∈ bs, b < 0x80) :
    utf8Decode bs = some (bs.map Char.ofNat) :=
  utf8DecodeAux_ascii bs bs.length (Nat.le_refl _) h

/-! ### Claim theorems -/

/-- C1: for every combination of the `CLR_32BITREQUIRED` flag and the PE
optional-header kind (PE32 vs PE32+), `extract_file_arch` yields exactly one
architecture feature: x86 when the flag is set and the header is 32-bit, x64
when the flag is clear and the header is 64-bit, and "any" for the other two
combinations. -/
theorem arch_feature_cases (pe : DnPE) (is64 : Bool)
    (h : pe.PE_TYPE = if is64 then OPTIONAL_HEADER_MAGIC_PE_PLUS else OPTIONAL_HEADER_MAGIC_PE) :
    extract_file_arch pe =
      [(Feature.Arch
          (if pe.netFlags.CLR_32BITREQUIRED && !is64 then ARCH_I386
           else if !pe.netFlags.CLR_32BITREQUIRED && is64 then ARCH_AMD64
           else ARCH_ANY), 0x0)] := by
  unfold extract_file_arch
  cases hb : pe.netFlags.CLR_32BITREQUIRED <;> cases is64 <;>
    simp_all [OPTIONAL_HEADER_MAGIC_PE, OPTIONAL_HEADER_MAGIC_PE_PLUS]

/-- Witness for C1: the sample binary (flag clear, PE32+ header) yields
exactly the x64 architecture feature. -/
theorem arch_feature_cases_witness :
    extract_file_arch samplePE = [(Feature.Arch ARCH_AMD64, 0x0)] := by
  have h := arch_feature_cases samplePE true (by decide)
  rw [h]; decide

/-- C6: the "mixed mode" characteristic is emitted iff the IL-only flag is
absent, a pure managed binary yields zero features from this rule, and the
facade's `is_mixed_mode` agrees with the same condition. -/
theorem mixed_mode_agreement (e : DotnetFileFeatureExtractor) :
    ((Feature.Characteristic "mixed mode", 0x0) ∈
        extract_file_mixed_mode_characteristic_features e.pe ↔
      e.pe.netFlags.CLR_ILONLY = false)
    ∧ (e.pe.netFlags.CLR_ILONLY = true →
        extract_file_mixed_mode_characteristic_features e.pe = [])
    ∧ (e.is_mixed_mode = true ↔ e.pe.netFlags.CLR_ILONLY = false) := by
  cases h : e.pe.netFlags.CLR_ILONLY <;>
    simp [extract_file_mixed_mode_characteristic_features, is_dotnet_mixed_mode,
      DotnetFileFeatureExtractor.is_mixed_mode, h]

/-- Witness for C6: the sample binary is pure managed (IL-only set), so the
mixed-mode rule emits zero features. -/
theorem mixed_mode_agreement_witness :
    extract_file_mixed_mode_characteristic_features samplePE = [] :=
  (mixed_mode_agreement ⟨"sample.exe", samplePE⟩).2.1 rfl

/-- C7: every function/basic-block/instruction-level facade operation fails
with the `UnsupportedOperation` error (`NotImplementedError` in the source)
and never returns a value. -/
theorem unsupported_operations (e : DotnetFileFeatureExtractor) (f bb insn va : Nat) :
    e.get_functions = Except.error (CapaError.UnsupportedOperation unsupportedMsg)
    ∧ e.extract_function_features f =
        Except.error (CapaError.UnsupportedOperation unsupportedMsg)
    ∧ e.get_basic_blocks f = Except.error (CapaError.UnsupportedOperation unsupportedMsg)
    ∧ e.extract_basic_block_features f bb =
        Except.error (CapaError.UnsupportedOperation unsupportedMsg)
    ∧ e.get_instructions f bb = Except.error (CapaError.UnsupportedOperation unsupportedMsg)
    ∧ e.extract_insn_features f bb insn =
        Except.error (CapaError.UnsupportedOperation unsupportedMsg)
    ∧ e.is_library_function va = Except.error (CapaError.UnsupportedOperation unsupportedMsg)
    ∧ e.get_function_name va = Except.error (CapaError.UnsupportedOperation unsupportedMsg) :=
  ⟨rfl, rfl, rfl, rfl, rfl, rfl, rfl, rfl⟩

/-- C9: `get_base_address` returns the constant 0, and the global OS rule
yields exactly one feature, tagged "any", at address 0. -/
theorem base_address_and_os (e : DotnetFileFeatureExtractor) :
    e.get_base_address = 0 ∧ extract_file_os = [(Feature.OSFeature "any", 0x0)] :=
  ⟨rfl, rfl⟩

/-- C10: feature extraction is a pure function of the parsed metadata: two
facade instances whose parsed binaries are equal (regardless of the path
they were opened from, and across repeated calls) produce the same stream of
(feature, token-or-address) pairs, for both file and global features. -/
theorem extraction_depends_only_on_parse (scanner : List Nat → List (Feature × Nat))
    (e₁ e₂ : DotnetFileFeatureExtractor) (h : e₁.pe = e₂.pe) :
    e₁.extract_file_features scanner = e₂.extract_file_features scanner
    ∧ e₁.extract_global_features = e₂.extract_global_features := by
  unfold DotnetFileFeatureExtractor.extract_file_features
    DotnetFileFeatureExtractor.extract_global_features
  rw [h]
  exact ⟨rfl, rfl⟩

/-- C2: `extract_file_namespace_features` yields exactly one Namespace
feature (at address 0) per distinct non-empty namespace occurring in the
TypeDef and TypeRef tables combined; the empty namespace is never emitted
and duplicates across rows or tables are emitted once. -/
theorem namespace_features_once (pe : DnPE) (ns : String) :
    (extract_file_namespace_features pe).countP
        (fun p => decide (p = (Feature.Namespace ns, 0x0))) =
      if ns ≠ "" ∧ (ns ∈ pe.typedefRows.map TypeRow.TypeNamespace
          ∨ ns ∈ pe.typerefRows.map TypeRow.TypeNamespace) then 1 else 0 := by
  unfold extract_file_namespace_features
  rw [iter_dotnet_table_typedef, iter_dotnet_table_typeref]
  dsimp only
  rw [List.countP_map]
  have hpt : ((fun p => decide (p = ((Feature.Namespace ns, 0x0) : Feature × Nat)))
        ∘ (fun namespace_ => ((Feature.Namespace namespace_, 0x0) : Feature × Nat)))
      = fun n => decide (n = ns) := by
    funext n
    by_cases h : n = ns <;> simp [h]
  rw [hpt]
  rw [countP_eq_ite_of_nodup _ ns (List.Nodup.filter _ (List.nodup_dedup _))]
  by_cases hc : ns ≠ "" ∧ (ns ∈ pe.typedefRows.map TypeRow.TypeNamespace
      ∨ ns ∈ pe.typerefRows.map TypeRow.TypeNamespace)
  · rw [if_pos hc, if_pos]
    refine List.mem_filter.mpr ⟨List.mem_dedup.mpr ?_, by simpa using hc.1⟩
    exact List.mem_append.mpr hc.2
  · rw [if_neg hc, if_neg]
    intro hmem
    obtain ⟨hd, hp⟩ := List.mem_filter.mp hmem
    exact hc ⟨by simpa using hp, List.mem_append.mp (List.mem_dedup.mp hd)⟩

/-- C3: each TypeDef row and each TypeRef row yields a Class feature whose
token combines that row's own table identifier with its 1-based ordinal in
that table (TypeDef rows occupy the first positions of the output, TypeRef
rows follow). -/
theorem class_features_tokens (pe : DnPE) :
    (∀ i row, pe.typedefRows[i]? = some row →
      (extract_file_class_features pe)[i]? =
        some (Feature.Class (format_name row.TypeNamespace row.TypeName),
          calculate_dotnet_token_value typeDefTableNumber (i + 1)))
    ∧ (∀ j row, pe.typerefRows[j]? = some row →
      (extract_file_class_features pe)[pe.typedefRows.length + j]? =
        some (Feature.Class (format_name row.TypeNamespace row.TypeName),
          calculate_dotnet_token_value typeRefTableNumber (j + 1))) := by
  unfold extract_file_class_features
  rw [iter_dotnet_table_typedef, iter_dotnet_table_typeref]
  constructor
  · intro i row h
    have hi : i < pe.typedefRows.length := (List.getElem?_eq_some.mp h).1
    rw [List.getElem?_append_left (by simpa using hi)]
    simp [List.getElem?_enum, h]
  · intro j row h
    rw [List.getElem?_append_right (by simp)]
    simp [List.getElem?_enum, h]

/-- Witness for C3: in the sample binary the TypeDef row sits at index 0
with token `0x02000001` and the TypeRef row follows with token
`0x01000001`. -/
theorem class_features_tokens_witness :
    (extract_file_class_features samplePE)[0]? =
        some (Feature.Class "System.IO.File", 0x02000001)
    ∧ (extract_file_class_features samplePE)[1]? =
        some (Feature.Class "Obj", 0x01000001) :=
  ⟨((class_features_tokens samplePE).1 0 ⟨"System.IO", "File"⟩ rfl).trans (by decide),
   ((class_features_tokens samplePE).2 0 ⟨"", "Obj"⟩ rfl).trans (by decide)⟩

/-- C4 counterexample: a binary with two TypeDef rows formatting to the same
name `N.T` yields two Class features for that value, not one — class
features are not deduplicated. -/
theorem class_features_not_deduped :
    extract_file_class_features dupClassPE =
      [(Feature.Class "N.T", 0x02000001), (Feature.Class "N.T", 0x02000002)] := by
  decide

/-- C4 amended: class features are emitted once per TypeDef/TypeRef row with
no deduplication by value — the emitted class values are exactly the
formatted names of the rows, in table order. -/
theorem class_feature_values_per_row (pe : DnPE) :
    (extract_file_class_features pe).map Prod.fst =
      pe.typedefRows.map (fun r => Feature.Class (format_name r.TypeNamespace r.TypeName))
      ++ pe.typerefRows.map (fun r => Feature.Class (format_name r.TypeNamespace r.TypeName)) := by
  unfold extract_file_class_features
  rw [iter_dotnet_table_typedef, iter_dotnet_table_typeref]
  rw [List.map_append]
  congr 1
  · exact map_fst_enumFrom_map 0 pe.typedefRows _ _ (fun i a => rfl)
  · exact map_fst_enumFrom_map 0 pe.typerefRows _ _ (fun i a => rfl)

/-- C5: every name variant generated for an unmanaged (P/Invoke) import is
emitted as an Import feature carrying that import's token, so all variants
of one import share one token. -/
theorem unmanaged_variants_share_token (pe : DnPE) (imp : DnUnmanagedImport)
    (himp : imp ∈ pe.unmanagedImports) (name : String)
    (hname : name ∈ generate_symbols imp.modulename imp.methodname) :
    (Feature.Import name, imp.token) ∈ extract_file_import_names pe := by
  unfold extract_file_import_names
  refine List.mem_append.mpr (Or.inr ?_)
  exact List.mem_flatMap.mpr ⟨imp, himp, List.mem_map.mpr ⟨name, hname, rfl⟩⟩

/-- Witness for C5: in the sample binary the `CreateFile` import's three
variants `CreateFile`, `CreateFileA`, `CreateFileW` are all emitted with the
one token `0x1A000001`. -/
theorem unmanaged_variants_share_token_witness :
    (Feature.Import "CreateFile", 0x1A000001) ∈ extract_file_import_names samplePE
    ∧ (Feature.Import "CreateFileA", 0x1A000001) ∈ extract_file_import_names samplePE
    ∧ (Feature.Import "CreateFileW", 0x1A000001) ∈ extract_file_import_names samplePE :=
  ⟨unmanaged_variants_share_token samplePE ⟨"kernel32.dll", "CreateFile", 0x1A000001⟩
      (by decide) "CreateFile" (by decide),
   unmanaged_variants_share_token samplePE ⟨"kernel32.dll", "CreateFile", 0x1A000001⟩
      (by decide) "CreateFileA" (by decide),
   unmanaged_variants_share_token samplePE ⟨"kernel32.dll", "CreateFile", 0x1A000001⟩
      (by decide) "CreateFileW" (by decide)⟩

/-- C8 counterexample: on a binary whose metadata version field is the
non-UTF8 byte `0xFF`, `get_meta_version_string` raises a decode error
instead of passing the anomaly through as a value. -/
theorem meta_version_raises_counterexample :
    DotnetFileFeatureExtractor.get_meta_version_string ⟨"bad.exe", badVersionPE⟩ =
      Except.error CapaError.UnicodeDecodeError := by
  rfl

/-- C8 amended: `get_meta_version_string` strips trailing NUL bytes and
decodes the rest strictly as UTF-8 — it returns the decoded string for valid
(e.g. ASCII) version fields, but a non-UTF8 version string raises a decode
error rather than being passed through as an empty or best-effort value. -/
theorem meta_version_ascii_ok (e : DotnetFileFeatureExtractor)
    (h : ∀ b ∈ rstripNull e.pe.metadataVersion, b < 0x80) :
    e.get_meta_version_string =
      Except.ok (String.mk ((rstripNull e.pe.metadataVersion).map Char.ofNat)) := by
  unfold DotnetFileFeatureExtractor.get_meta_version_string
  rw [utf8Decode_ascii _ h]

/-- Witness for C8: the sample binary's version field decodes to
`"v4.0.30319"` with the trailing NUL padding stripped. -/
theorem meta_version_ascii_ok_witness :
    DotnetFileFeatureExtractor.get_meta_version_string ⟨"sample.exe", samplePE⟩ =
      Except.ok "v4.0.30319" := by
  rw [meta_version_ascii_ok ⟨"sample.exe", samplePE⟩ (by decide)]
  rfl

/-- Witness for C10: two facades over the same parsed binary but different
paths yield identical file-feature streams. -/
theorem extraction_depends_only_on_parse_witness :
    DotnetFileFeatureExtractor.extract_file_features (fun _ => []) ⟨"a.exe", samplePE⟩ =
      DotnetFileFeatureExtractor.extract_file_features (fun _ => []) ⟨"b.exe", samplePE⟩ :=
  (extraction_depends_only_on_parse (fun _ => [])
    ⟨"a.exe", samplePE⟩ ⟨"b.exe", samplePE⟩ rfl).1

end DotnetFile
